import Mathlib

/-!
Shallow embedding of the venn-backend session voting core
(src/server.js, src/models/Session.js, src/models/User.js).

Mongo documents become Lean structures; the collections become
association lists keyed by document id; each Express handler becomes a
function from the store and the (optional, possibly empty) request
fields to the new store and an outcome mirroring the handler's
`res.status(...).json(...)` return sites.  JavaScript `Map` values
(`optionSwipes`, the aggregator's `swipeCount`) become insertion-ordered
association lists: `set` on a present key updates the value in place,
`set` on an absent key appends.  `Array.prototype.sort` with comparator
`(a, b) => b[1] - a[1]` is the stable descending sort on the second
component, modelled with `List.insertionSort`.
-/

namespace Venn

/-- `status` enum of SessionSchema: Pending | Active | Completed | Cancelled. -/
inductive Status where
  | Pending
  | Active
  | Completed
  | Cancelled
deriving DecidableEq, Repr

/-- `session.status.toLowerCase()`: the lower-cased status word, written
out on the four enum values. -/
def Status.lower : Status → String
  | .Pending => "pending"
  | .Active => "active"
  | .Completed => "completed"
  | .Cancelled => "cancelled"

/-- One entry of `SessionSchema.options`:
`{ optionId, description, yesVotes, noVotes }`. -/
structure OptionRecord where
  optionId : String
  description : String
  yesVotes : Int
  noVotes : Int
deriving DecidableEq, Repr

/-- One entry of `SessionSchema.swipes`: a user id and the `Map` from
optionId to the vote string, kept in insertion order like a JS `Map`. -/
structure SwipeRecord where
  userId : String
  optionSwipes : List (String × String)
deriving DecidableEq, Repr

/-- A Session document (models/Session.js).  ObjectIds are strings. -/
structure Session where
  sessionId : String
  title : String
  createdBy : String
  users : List String
  options : List OptionRecord
  status : Status
  swipes : List SwipeRecord
deriving DecidableEq, Repr

/-- A User document (models/User.js); password/account fields are outside
the core, only the session-reference lists matter here. -/
structure User where
  userId : String
  userName : String
  email : String
  createdSessions : List String
  joinedSessions : List String
deriving DecidableEq, Repr

/-- The two collections, keyed by Mongo `_id` (a string here). -/
structure Store where
  sessions : List (String × Session)
  users : List (String × User)
deriving DecidableEq, Repr

/-- `Model.findById`: first binding with the given id. -/
def findSession (st : Store) (id : String) : Option Session :=
  (st.sessions.find? (fun p => p.1 == id)).map Prod.snd

/-- `User.findById`. -/
def findUser (st : Store) (id : String) : Option User :=
  (st.users.find? (fun p => p.1 == id)).map Prod.snd

/-- `document.save()`: replace the first binding with this key by the
updated document (the handler only saves documents it just fetched). -/
def setBinding {α : Type} (l : List (String × α)) (k : String) (v : α) :
    List (String × α) :=
  match l with
  | [] => []
  | (k', v') :: t => if k' == k then (k, v) :: t else (k', v') :: setBinding t k v

def setSession (st : Store) (k : String) (v : Session) : Store :=
  { st with sessions := setBinding st.sessions k v }

def setUser (st : Store) (k : String) (v : User) : Store :=
  { st with users := setBinding st.users k v }

/-- JS `Map.prototype.set`: update in place if the key is present
(keeping its position), else append at the end. -/
def mapSet (m : List (String × String)) (k v : String) :
    List (String × String) :=
  match m with
  | [] => [(k, v)]
  | (k', v') :: l => if k' == k then (k, v) :: l else (k', v') :: mapSet l k v

/-- Body of the swipe mutation in POST /swipe-option:
`session.swipes.find(swipe => swipe.userId.equals(userId))`, pushing a
fresh record when absent, then `userSwipe.optionSwipes.set(optionId,
swipeAction)`.  Returns the new swipe list together with the mutated
record's map (what the handler serialises back to the caller). -/
def upsertSwipe (l : List SwipeRecord) (uid oid act : String) :
    List SwipeRecord × List (String × String) :=
  match l with
  | [] => ([⟨uid, [(oid, act)]⟩], [(oid, act)])
  | r :: rs =>
    if r.userId == uid then
      (⟨r.userId, mapSet r.optionSwipes oid act⟩ :: rs,
       mapSet r.optionSwipes oid act)
    else
      let p := upsertSwipe rs uid oid act
      (r :: p.1, p.2)

/-- Return sites of POST /join-session. -/
inductive JoinOutcome where
  | idsRequired
  | sessionMissing
  | cannotJoinStatus (st : Status)
  | userMissing
  | alreadyInSession
  | joined (s : Session)
deriving DecidableEq, Repr

/-- The HTTP status each return site of /join-session uses. -/
def JoinOutcome.statusCode : JoinOutcome → Nat
  | .idsRequired => 400
  | .sessionMissing => 404
  | .cannotJoinStatus _ => 400
  | .userMissing => 404
  | .alreadyInSession => 400
  | .joined _ => 200

/-- The error message each failing return site of /join-session sends. -/
def JoinOutcome.errorMsg : JoinOutcome → Option String
  | .idsRequired => some "sessionID and userID are required"
  | .sessionMissing => some "Session doesn't exist"
  | .cannotJoinStatus st =>
      some ("Cannot join a " ++ st.lower ++ " session")
  | .userMissing => some "User doesn't exist"
  | .alreadyInSession => some "User is already in the session"
  | .joined _ => none

/-- POST /join-session.  `!sessionId || !userId` treats a missing field
and the empty string alike, hence the `Option String` arguments with an
emptiness check. -/
def joinSession (st : Store) (sessionId? userId? : Option String) :
    Store × JoinOutcome :=
  match sessionId?, userId? with
  | some sid, some uid =>
    if sid = "" ∨ uid = "" then (st, .idsRequired)
    else
      match findSession st sid with
      | none => (st, .sessionMissing)
      | some session =>
        if session.status = .Completed ∨ session.status = .Cancelled then
          (st, .cannotJoinStatus session.status)
        else
          match findUser st uid with
          | none => (st, .userMissing)
          | some user =>
            if session.users.contains uid then (st, .alreadyInSession)
            else
              (setUser (setSession st sid
                  { session with users := session.users ++ [uid] }) uid
                { user with joinedSessions := user.joinedSessions ++ [sid] },
               .joined { session with users := session.users ++ [uid] })
  | _, _ => (st, .idsRequired)

/-- Return sites of POST /swipe-option. -/
inductive SwipeOutcome where
  | argsRequired
  | sessionMissing
  | userNotInSession
  | invalidAction
  | recorded (swipes : List (String × String))
deriving DecidableEq, Repr

/-- The HTTP status each return site of /swipe-option uses; the
user-not-in-session branch is `res.status(404)` in the source. -/
def SwipeOutcome.statusCode : SwipeOutcome → Nat
  | .argsRequired => 400
  | .sessionMissing => 404
  | .userNotInSession => 404
  | .invalidAction => 400
  | .recorded _ => 200

/-- The error message each failing return site of /swipe-option sends. -/
def SwipeOutcome.errorMsg : SwipeOutcome → Option String
  | .argsRequired => some "session ID, user ID, option ID and swipe action are required"
  | .sessionMissing => some "Session doesn't exist"
  | .userNotInSession => some "User is not in session"
  | .invalidAction => some "Invalid swipe action"
  | .recorded _ => none

/-- POST /swipe-option. -/
def swipeOption (st : Store) (sessionId? userId? optionId? swipeAction? : Option String) :
    Store × SwipeOutcome :=
  match sessionId?, userId?, optionId?, swipeAction? with
  | some sid, some uid, some oid, some act =>
    if sid = "" ∨ uid = "" ∨ oid = "" ∨ act = "" then (st, .argsRequired)
    else
      match findSession st sid with
      | none => (st, .sessionMissing)
      | some session =>
        if session.users.contains uid then
          if act = "yes" ∨ act = "no" then
            (setSession st sid
              { session with swipes := (upsertSwipe session.swipes uid oid act).1 },
             .recorded (upsertSwipe session.swipes uid oid act).2)
          else (st, .invalidAction)
        else (st, .userNotInSession)
  | _, _, _, _ => (st, .argsRequired)

/-- The aggregator's inner loop: fold one user's `optionSwipes` into the
yes-counter map (`swipeCount.set(optionId, (get || 0) + 1)` when the
vote is "yes").  `Map.set` on a present key keeps its position. -/
def bump (m : List (String × Nat)) (k : String) : List (String × Nat) :=
  match m with
  | [] => [(k, 1)]
  | (k', c) :: l => if k' == k then (k', c + 1) :: l else (k', c) :: bump l k

def countYes (m : List (String × Nat)) (record : List (String × String)) :
    List (String × Nat) :=
  record.foldl (fun acc p => if p.2 = "yes" then bump acc p.1 else acc) m

/-- The yes-counter map of GET /session-result, built over all swipe
records in order. -/
def yesCounts (swipes : List SwipeRecord) : List (String × Nat) :=
  swipes.foldl (fun acc r => countYes acc r.optionSwipes) []

/-- Comparator of `.sort((a, b) => b[1] - a[1])`: `p` may stay before
`q` iff `q`'s count does not exceed `p`'s. -/
def countGE (p q : String × Nat) : Prop := q.2 ≤ p.2

instance : DecidableRel countGE := fun p q => Nat.decLe q.2 p.2

instance : IsTotal (String × Nat) countGE :=
  ⟨fun p q => Nat.le_total q.2 p.2⟩

instance : IsTrans (String × Nat) countGE :=
  ⟨fun _ _ _ h1 h2 => Nat.le_trans h2 h1⟩

/-- `[...swipeCount].sort((a, b) => b[1] - a[1])`: the stable sort of
the counter entries by count descending. -/
def sortDesc (l : List (String × Nat)) : List (String × Nat) :=
  List.insertionSort countGE l

/-- Return sites of GET /session-result. -/
inductive ResultOutcome where
  | sessionIdRequired
  | sessionMissing
  | unanimous (unanimousResults : List String) (allResults : List (String × Nat))
  | noYesSwipes
  | ranked (allResults : List (String × Nat))
deriving DecidableEq, Repr

def ResultOutcome.statusCode : ResultOutcome → Nat
  | .sessionIdRequired => 400
  | .sessionMissing => 404
  | .unanimous _ _ => 200
  | .noYesSwipes => 400
  | .ranked _ => 200

/-- The aggregation on a fetched session: yes-counter map, unanimous
list (`count === userCount`), then the three-way branch of the handler. -/
def computeOutcome (s : Session) : ResultOutcome :=
  let counts := yesCounts s.swipes
  let userCount := s.users.length
  let unan := (counts.filter (fun p => p.2 = userCount)).map Prod.fst
  let sorted := sortDesc counts
  if unan.length > 0 then .unanimous unan sorted
  else if sorted.length = 0 then .noYesSwipes
  else .ranked sorted

/-- GET /session-result (read-only: the handler never saves). -/
def sessionResult (st : Store) (sessionId? : Option String) : ResultOutcome :=
  match sessionId? with
  | some sid =>
    if sid = "" then .sessionIdRequired
    else
      match findSession st sid with
      | none => .sessionMissing
      | some s => computeOutcome s
  | none => .sessionIdRequired

/-- The unanimous list the handler builds for a session. -/
def unanimousOf (s : Session) : List String :=
  ((yesCounts s.swipes).filter (fun p => p.2 = s.users.length)).map Prod.fst

/-- Structural invariant of a JS `Map`: its keys are distinct.  A
session is well-formed when every swipe record's map has distinct
optionId keys. -/
def SessionWF (s : Session) : Prop :=
  ∀ r ∈ s.swipes, (r.optionSwipes.map Prod.fst).Nodup

/-! ### Basic lemmas about the map / store primitives -/

lemma mapSet_mapSet (m : List (String × String)) (k v1 v2 : String) :
    mapSet (mapSet m k v1) k v2 = mapSet m k v2 := by
  induction m with
  | nil => simp [mapSet]
  | cons p l ih =>
    obtain ⟨k', v'⟩ := p
    by_cases h : k' = k
    · simp [mapSet, h]
    · simp [mapSet, h, ih]

lemma lookup_mapSet (m : List (String × String)) (k v : String) :
    (mapSet m k v).lookup k = some v := by
  induction m with
  | nil => simp [mapSet, List.lookup]
  | cons p l ih =>
    obtain ⟨k', v'⟩ := p
    by_cases h : k' = k
    · simp [mapSet, h, List.lookup]
    · simp only [mapSet, beq_iff_eq, h, if_false, List.lookup]
      have : (k == k') = false := by
        simp [Ne.symm h]
      simp [this, ih]

lemma filter_mapSet (m : List (String × String)) (k v : String)
    (h : (m.map Prod.fst).Nodup) :
    (mapSet m k v).filter (fun p => p.1 == k) = [(k, v)] := by
  induction m with
  | nil => simp [mapSet]
  | cons p l ih =>
    obtain ⟨k', v'⟩ := p
    simp only [List.map_cons, List.nodup_cons] at h
    by_cases hk : k' = k
    · subst hk
      have : l.filter (fun p => p.1 == k') = [] := by
        rw [List.filter_eq_nil_iff]
        intro a ha
        simp only [beq_iff_eq]
        exact fun hek => h.1 (hek ▸ List.mem_map_of_mem Prod.fst ha)
      simp [mapSet, this]
    · simp [mapSet, hk, ih h.2]

lemma setBinding_setBinding {α : Type} (l : List (String × α)) (k : String)
    (v w : α) : setBinding (setBinding l k v) k w = setBinding l k w := by
  induction l with
  | nil => simp [setBinding]
  | cons p t ih =>
    obtain ⟨k', v'⟩ := p
    by_cases h : k' = k
    · simp [setBinding, h]
    · simp [setBinding, h, ih]

lemma find?_setBinding_self {α : Type} (l : List (String × α)) (k : String)
    (v : α) (h : (l.find? (fun p => p.1 == k)).isSome) :
    (setBinding l k v).find? (fun p => p.1 == k) = some (k, v) := by
  induction l with
  | nil => simp [List.find?] at h
  | cons p t ih =>
    obtain ⟨k', v'⟩ := p
    by_cases hk : k' = k
    · simp [setBinding, hk]
    · rw [List.find?_cons_of_neg _ (by simp [hk])] at h
      simp only [setBinding, beq_iff_eq, hk, if_false]
      rw [List.find?_cons_of_neg _ (by simp [hk])]
      exact ih h

lemma find?_setBinding_ne {α : Type} (l : List (String × α)) (k k' : String)
    (v : α) (h : k' ≠ k) :
    (setBinding l k v).find? (fun p => p.1 == k') = l.find? (fun p => p.1 == k') := by
  induction l with
  | nil => simp [setBinding]
  | cons p t ih =>
    obtain ⟨k₀, v₀⟩ := p
    by_cases hk : k₀ = k
    · simp only [setBinding, beq_iff_eq, hk, if_true]
      rw [List.find?_cons_of_neg _ (by simp [Ne.symm h]),
        List.find?_cons_of_neg _ (by simp [hk, Ne.symm h])]
    · simp only [setBinding, beq_iff_eq, hk, if_false]
      by_cases hk' : k₀ = k'
      · rw [List.find?_cons_of_pos _ (by simp [hk']),
          List.find?_cons_of_pos _ (by simp [hk'])]
      · rw [List.find?_cons_of_neg _ (by simp [hk']),
          List.find?_cons_of_neg _ (by simp [hk']), ih]

lemma findSession_setSession (st : Store) (k : String) (v s : Session)
    (h : findSession st k = some s) :
    findSession (setSession st k v) k = some v := by
  have hsome : (st.sessions.find? (fun p => p.1 == k)).isSome := by
    unfold findSession at h
    cases hf : st.sessions.find? (fun p => p.1 == k) with
    | none => rw [hf] at h; simp at h
    | some p => simp
  unfold findSession setSession
  simp [find?_setBinding_self st.sessions k v hsome]

lemma findSession_setSession_ne (st : Store) (k k' : String) (v : Session)
    (h : k' ≠ k) :
    findSession (setSession st k v) k' = findSession st k' := by
  unfold findSession setSession
  simp [find?_setBinding_ne st.sessions k k' v h]

lemma setSession_users (st : Store) (k : String) (v : Session) :
    (setSession st k v).users = st.users := rfl

/-! ### Lemmas about the swipe upsert -/

lemma upsertSwipe_upsertSwipe (l : List SwipeRecord) (u o v1 v2 : String) :
    upsertSwipe (upsertSwipe l u o v1).1 u o v2 = upsertSwipe l u o v2 := by
  induction l with
  | nil => simp [upsertSwipe, mapSet]
  | cons r rs ih =>
    by_cases h : r.userId = u
    · simp [upsertSwipe, h, mapSet_mapSet]
    · simp [upsertSwipe, h, ih]

lemma upsertSwipe_snd (l : List SwipeRecord) (u o v : String)
    (hwf : ∀ r ∈ l, (r.optionSwipes.map Prod.fst).Nodup) :
    ∃ m0, (m0.map Prod.fst).Nodup ∧ (upsertSwipe l u o v).2 = mapSet m0 o v := by
  induction l with
  | nil => exact ⟨[], by simp, by simp [upsertSwipe, mapSet]⟩
  | cons r rs ih =>
    by_cases h : r.userId = u
    · exact ⟨r.optionSwipes, hwf r (by simp), by simp [upsertSwipe, h]⟩
    · obtain ⟨m0, hm0, heq⟩ := ih (fun r hr => hwf r (List.mem_cons_of_mem _ hr))
      exact ⟨m0, hm0, by simp [upsertSwipe, h, heq]⟩

lemma upsertSwipe_filter_ne (l : List SwipeRecord) (u o a : String) :
    (upsertSwipe l u o a).1.filter (fun r => !(r.userId == u)) =
      l.filter (fun r => !(r.userId == u)) := by
  induction l with
  | nil => simp [upsertSwipe]
  | cons r rs ih =>
    by_cases h : r.userId = u
    · simp [upsertSwipe, h]
    · simp [upsertSwipe, h, ih]

lemma upsertSwipe_userIds (l : List SwipeRecord) (u o a : String) :
    (upsertSwipe l u o a).1.map SwipeRecord.userId = l.map SwipeRecord.userId ∨
      (upsertSwipe l u o a).1.map SwipeRecord.userId =
        l.map SwipeRecord.userId ++ [u] := by
  induction l with
  | nil => right; simp [upsertSwipe]
  | cons r rs ih =>
    by_cases h : r.userId = u
    · left; simp [upsertSwipe, h]
    · cases ih with
      | inl he => left; simp [upsertSwipe, h, he]
      | inr he => right; simp [upsertSwipe, h, he]

/-! ### Lemmas about the aggregator -/

lemma bump_ne_nil (m : List (String × Nat)) (k : String) : bump m k ≠ [] := by
  cases m with
  | nil => simp [bump]
  | cons p l =>
    obtain ⟨k', c⟩ := p
    by_cases h : k' = k <;> simp [bump, h]

lemma bump_pos (m : List (String × Nat)) (k : String)
    (h : ∀ p ∈ m, 1 ≤ p.2) : ∀ p ∈ bump m k, 1 ≤ p.2 := by
  induction m with
  | nil => simp [bump]
  | cons q l ih =>
    obtain ⟨k', c⟩ := q
    by_cases hk : k' = k
    · simp only [bump, beq_iff_eq, hk, if_true]
      intro p hp
      rcases List.mem_cons.mp hp with h1 | h1
      · subst h1; exact Nat.le_add_left 1 c
      · exact h p (List.mem_cons_of_mem _ h1)
    · simp only [bump, beq_iff_eq, hk, if_false]
      intro p hp
      rcases List.mem_cons.mp hp with h1 | h1
      · exact h p (h1 ▸ List.mem_cons_self _ _)
      · exact ih (fun q hq => h q (List.mem_cons_of_mem _ hq)) p h1

lemma countYes_pos (record : List (String × String)) (m : List (String × Nat))
    (h : ∀ p ∈ m, 1 ≤ p.2) : ∀ p ∈ countYes m record, 1 ≤ p.2 := by
  induction record generalizing m with
  | nil => simpa [countYes] using h
  | cons q rest ih =>
    simp only [countYes, List.foldl_cons]
    by_cases hy : q.2 = "yes"
    · simp only [hy, if_true]
      exact ih (bump m q.1) (bump_pos m q.1 h)
    · simp only [hy, if_false]
      exact ih m h

lemma yesCounts_pos (swipes : List SwipeRecord) :
    ∀ p ∈ yesCounts swipes, 1 ≤ p.2 := by
  have key : ∀ (l : List SwipeRecord) (m : List (String × Nat)),
      (∀ p ∈ m, 1 ≤ p.2) →
      ∀ p ∈ l.foldl (fun acc r => countYes acc r.optionSwipes) m, 1 ≤ p.2 := by
    intro l
    induction l with
    | nil => intro m hm; simpa using hm
    | cons r rest ih =>
      intro m hm
      simp only [List.foldl_cons]
      exact ih (countYes m r.optionSwipes) (countYes_pos r.optionSwipes m hm)
  exact key swipes [] (by simp)

lemma countYes_eq_nil_iff (record : List (String × String))
    (m : List (String × Nat)) :
    countYes m record = [] ↔ m = [] ∧ ∀ p ∈ record, p.2 ≠ "yes" := by
  induction record generalizing m with
  | nil => simp [countYes]
  | cons q rest ih =>
    simp only [countYes, List.foldl_cons]
    by_cases hy : q.2 = "yes"
    · simp only [hy, if_true]
      constructor
      · intro h
        rcases (ih (bump m q.1)).mp h with ⟨hb, _⟩
        exact absurd hb (bump_ne_nil m q.1)
      · rintro ⟨-, hall⟩
        exact absurd hy (hall q (List.mem_cons_self _ _))
    · simp only [hy, if_false]
      constructor
      · intro h
        rcases (ih m).mp h with ⟨hm, hall⟩
        refine ⟨hm, ?_⟩
        intro p hp
        rcases List.mem_cons.mp hp with h1 | h1
        · subst h1; exact hy
        · exact hall p h1
      · rintro ⟨hm, hall⟩
        exact (ih m).mpr ⟨hm, fun p hp => hall p (List.mem_cons_of_mem _ hp)⟩

lemma yesCounts_eq_nil_iff (swipes : List SwipeRecord) :
    yesCounts swipes = [] ↔
      ∀ r ∈ swipes, ∀ p ∈ r.optionSwipes, p.2 ≠ "yes" := by
  have key : ∀ (l : List SwipeRecord) (m : List (String × Nat)),
      l.foldl (fun acc r => countYes acc r.optionSwipes) m = [] ↔
        m = [] ∧ ∀ r ∈ l, ∀ p ∈ r.optionSwipes, p.2 ≠ "yes" := by
    intro l
    induction l with
    | nil => simp
    | cons r rest ih =>
      intro m
      simp only [List.foldl_cons]
      rw [ih (countYes m r.optionSwipes)]
      rw [countYes_eq_nil_iff r.optionSwipes m]
      constructor
      · rintro ⟨⟨hm, hr⟩, hall⟩
        refine ⟨hm, ?_⟩
        intro r' hr'
        rcases List.mem_cons.mp hr' with h1 | h1
        · subst h1; exact hr
        · exact hall r' h1
      · rintro ⟨hm, hall⟩
        exact ⟨⟨hm, hall r (List.mem_cons_self _ _)⟩,
          fun r' hr' => hall r' (List.mem_cons_of_mem _ hr')⟩
  unfold yesCounts
  rw [key swipes []]
  simp

lemma sortDesc_perm (l : List (String × Nat)) : (sortDesc l).Perm l :=
  List.perm_insertionSort countGE l

lemma sortDesc_sorted (l : List (String × Nat)) :
    (sortDesc l).Sorted countGE :=
  List.sorted_insertionSort countGE l

lemma sortDesc_eq_nil_iff (l : List (String × Nat)) :
    sortDesc l = [] ↔ l = [] := by
  constructor
  · intro h
    have := (sortDesc_perm l).length_eq
    rw [h] at this
    exact List.eq_nil_of_length_eq_zero this.symm
  · intro h; subst h; rfl

/-! ### Characterising the successful swipe path -/

lemma swipeOption_eq_recorded (st : Store) (sid uid oid act : String)
    (s : Session) (hs : sid ≠ "") (hu : uid ≠ "") (ho : oid ≠ "") (ha : act ≠ "")
    (hf : findSession st sid = some s) (hmem : s.users.contains uid = true)
    (hact : act = "yes" ∨ act = "no") :
    swipeOption st (some sid) (some uid) (some oid) (some act) =
      (setSession st sid { s with swipes := (upsertSwipe s.swipes uid oid act).1 },
       .recorded (upsertSwipe s.swipes uid oid act).2) := by
  simp only [swipeOption, hs, hu, ho, ha, false_or, if_false, hf, hmem, hact,
    if_true]

lemma swipeOption_recorded_inv (st st1 : Store) (a b c d : Option String)
    (m : List (String × String))
    (h : swipeOption st a b c d = (st1, .recorded m)) :
    ∃ sid uid oid act s,
      a = some sid ∧ b = some uid ∧ c = some oid ∧ d = some act ∧
      sid ≠ "" ∧ uid ≠ "" ∧ oid ≠ "" ∧ act ≠ "" ∧
      findSession st sid = some s ∧ s.users.contains uid = true ∧
      (act = "yes" ∨ act = "no") ∧
      st1 = setSession st sid
        { s with swipes := (upsertSwipe s.swipes uid oid act).1 } ∧
      m = (upsertSwipe s.swipes uid oid act).2 := by
  rcases a with _ | sid
  · simp [swipeOption] at h
  rcases b with _ | uid
  · simp [swipeOption] at h
  rcases c with _ | oid
  · simp [swipeOption] at h
  rcases d with _ | act
  · simp [swipeOption] at h
  by_cases hs : sid = ""
  · simp [swipeOption, hs] at h
  by_cases hu : uid = ""
  · simp [swipeOption, hu] at h
  by_cases ho : oid = ""
  · simp [swipeOption, ho] at h
  by_cases ha : act = ""
  · simp [swipeOption, ha] at h
  simp only [swipeOption, hs, hu, ho, ha, false_or, if_false] at h
  cases hfind : findSession st sid with
  | none => rw [hfind] at h; simp at h
  | some s =>
    rw [hfind] at h
    simp only at h
    by_cases hmem : s.users.contains uid = true
    · simp only [hmem, if_true] at h
      by_cases hact : act = "yes" ∨ act = "no"
      · simp only [hact, if_true, Prod.mk.injEq, SwipeOutcome.recorded.injEq] at h
        exact ⟨sid, uid, oid, act, s, rfl, rfl, rfl, rfl, hs, hu, ho, ha,
          hfind, hmem, hact, h.1.symm, h.2.symm⟩
      · simp [hact] at h
    · have hmem' : ¬ uid ∈ s.users := by simpa using hmem
      simp [hmem'] at h

lemma setSession_setSession (st : Store) (k : String) (v w : Session) :
    setSession (setSession st k v) k w = setSession st k w := by
  unfold setSession
  simp [setBinding_setBinding]

lemma sessionResult_eq_computeOutcome (st : Store) (i : String) (s : Session)
    (hi : i ≠ "") (hf : findSession st i = some s) :
    sessionResult st (some i) = computeOutcome s := by
  simp [sessionResult, hi, hf]

/-! ### Concrete fixtures used by the witnesses -/

def demoUser : User := ⟨"uu-1", "alice", "alice@example.com", [], []⟩

def demoSession1 : Session :=
  ⟨"uuid-1", "Dinner", "u1", ["u1"], [], .Pending, []⟩

def demoStore1 : Store := ⟨[("S1", demoSession1)], [("u1", demoUser)]⟩

def demoSession2 : Session :=
  ⟨"uuid-2", "Dinner", "u1", ["u1", "u2"], [], .Active,
    [⟨"u1", [("A", "yes"), ("B", "yes")]⟩, ⟨"u2", [("A", "yes"), ("B", "no")]⟩]⟩

def demoStore2 : Store := ⟨[("S2", demoSession2)], [("u1", demoUser)]⟩

def demoSessionNo : Session :=
  ⟨"uuid-3", "Dinner", "u1", ["u1"], [], .Active, [⟨"u1", [("A", "no")]⟩]⟩

def demoStoreNo : Store := ⟨[("SN", demoSessionNo)], [("u1", demoUser)]⟩

def demoSessionEmpty : Session :=
  ⟨"uuid-4", "Dinner", "u1", [], [], .Active, [⟨"u1", [("A", "yes")]⟩]⟩

def demoStoreEmpty : Store := ⟨[("SE", demoSessionEmpty)], [("u1", demoUser)]⟩

def demoSessionDone : Session :=
  ⟨"uuid-5", "Dinner", "u1", ["u1"], [], .Completed, []⟩

def demoStoreDone : Store := ⟨[("SC", demoSessionDone)], [("u1", demoUser)]⟩

/-! ### Claim theorems -/

/-- C1: for every session in the store, the result is "unanimous" exactly
when the set of optionIds whose derived yes-count equals the member count
is non-empty, and it then carries precisely that set together with the
full (optionId, yesCount) list sorted by yesCount descending (a
permutation of the derived counter entries). -/
theorem computeResult_unanimous_iff (st : Store) (i : String) (s : Session)
    (hi : i ≠ "") (hf : findSession st i = some s) :
    (∀ U A, sessionResult st (some i) = .unanimous U A ↔
        (unanimousOf s ≠ [] ∧ U = unanimousOf s ∧
          A = sortDesc (yesCounts s.swipes)))
    ∧ (sortDesc (yesCounts s.swipes)).Sorted countGE
    ∧ (sortDesc (yesCounts s.swipes)).Perm (yesCounts s.swipes) := by
  refine ⟨?_, sortDesc_sorted _, sortDesc_perm _⟩
  intro U A
  rw [sessionResult_eq_computeOutcome st i s hi hf]
  unfold computeOutcome unanimousOf
  by_cases hu :
      ((yesCounts s.swipes).filter (fun p => p.2 = s.users.length)).map
        Prod.fst = []
  · simp only [hu, List.length_nil, gt_iff_lt, lt_self_iff_false, if_false]
    constructor
    · intro hcontra
      by_cases hlen : (sortDesc (yesCounts s.swipes)).length = 0
      · simp [hlen] at hcontra
      · simp [hlen] at hcontra
    · rintro ⟨hne, -, -⟩
      exact absurd rfl hne
  · have hlen : 0 <
        (((yesCounts s.swipes).filter (fun p => p.2 = s.users.length)).map
          Prod.fst).length := List.length_pos.mpr hu
    simp only [gt_iff_lt, hlen, if_true, ResultOutcome.unanimous.injEq]
    constructor
    · rintro ⟨hU, hA⟩
      exact ⟨hu, hU.symm, hA.symm⟩
    · rintro ⟨-, hU, hA⟩
      exact ⟨hU.symm, hA.symm⟩

/-- C1 witness: a two-member session where option "A" has two yes votes
and "B" one; the result is unanimous on ["A"] with the sorted tally. -/
theorem computeResult_unanimous_iff_witness :
    sessionResult demoStore2 (some "S2") = .unanimous ["A"] [("A", 2), ("B", 1)] :=
  ((computeResult_unanimous_iff demoStore2 "S2" demoSession2 (by decide) rfl).1
    ["A"] [("A", 2), ("B", 1)]).mpr ⟨by decide, by decide, by decide⟩

/-- C6: for an existing session, the result is the no-data failure iff no
swipe record of the session contains a "yes" vote. -/
theorem computeResult_noData_iff (st : Store) (i : String) (s : Session)
    (hi : i ≠ "") (hf : findSession st i = some s) :
    sessionResult st (some i) = .noYesSwipes ↔
      ∀ r ∈ s.swipes, ∀ p ∈ r.optionSwipes, p.2 ≠ "yes" := by
  rw [sessionResult_eq_computeOutcome st i s hi hf, ← yesCounts_eq_nil_iff]
  unfold computeOutcome
  by_cases hnil : yesCounts s.swipes = []
  · simp [hnil, sortDesc]
  · have hsort : ¬ sortDesc (yesCounts s.swipes) = [] := by
      rw [sortDesc_eq_nil_iff]; exact hnil
    have hsortlen : ¬ (sortDesc (yesCounts s.swipes)).length = 0 := by
      simpa [List.length_eq_zero] using hsort
    simp only [hnil, iff_false]
    by_cases hu : 0 <
        ((yesCounts s.swipes).filter (fun p => p.2 = s.users.length)).length
    · simp [hu]
    · simp [hu, hsortlen, hsort]

/-- C6 witness: a session whose only swipe record holds a single "no"
vote fails with the no-data outcome. -/
theorem computeResult_noData_iff_witness :
    sessionResult demoStoreNo (some "SN") = .noYesSwipes :=
  (computeResult_noData_iff demoStoreNo "SN" demoSessionNo (by decide) rfl).mpr
    (by decide)

/-- C7: an existing session with an empty users list is never reported
unanimous, whatever its swipe records contain. -/
theorem computeResult_no_unanimous_of_no_members (st : Store) (i : String)
    (s : Session) (hi : i ≠ "") (hf : findSession st i = some s)
    (hempty : s.users = []) :
    ∀ U A, sessionResult st (some i) ≠ .unanimous U A := by
  intro U A
  rw [sessionResult_eq_computeOutcome st i s hi hf]
  unfold computeOutcome
  have hfil : (yesCounts s.swipes).filter (fun p => p.2 = s.users.length) = [] := by
    rw [List.filter_eq_nil_iff]
    intro p hp
    have hpos := yesCounts_pos s.swipes p hp
    simp only [hempty, List.length_nil, decide_eq_true_eq]
    omega
  simp only [hfil, List.map_nil, List.length_nil, gt_iff_lt,
    lt_self_iff_false, if_false]
  by_cases hlen : (sortDesc (yesCounts s.swipes)).length = 0
  · simp [hlen]
  · simp [hlen]

/-- C7 witness: zero members but a recorded "yes" vote; the outcome is
not the unanimous result built from that vote. -/
theorem computeResult_no_unanimous_of_no_members_witness :
    sessionResult demoStoreEmpty (some "SE") ≠ .unanimous ["A"] [("A", 1)] :=
  computeResult_no_unanimous_of_no_members demoStoreEmpty "SE"
    demoSessionEmpty (by decide) rfl rfl ["A"] [("A", 1)]

/-- C9: the aggregation is a deterministic function of the ledger and the
membership alone: sessions agreeing on `users` and `swipes` (whatever
their other fields) get identical results, including identical ordering
among equal counts. -/
theorem computeResult_deterministic (s1 s2 : Session)
    (hu : s1.users = s2.users) (hs : s1.swipes = s2.swipes) :
    computeOutcome s1 = computeOutcome s2 := by
  unfold computeOutcome
  rw [hu, hs]

/-- C9 witness: two sessions differing only in the title aggregate to the
same result. -/
theorem computeResult_deterministic_witness :
    computeOutcome demoSession2 =
      computeOutcome { demoSession2 with title := "Lunch" } :=
  computeResult_deterministic demoSession2
    { demoSession2 with title := "Lunch" } rfl rfl

/-- C2 counterexample: swiping as a user that is not in the session's
users list is rejected with the "User is not in session" return site,
whose HTTP status in the source is 404, not the 400 a Conflict-kind
error would map to. -/
theorem swipe_nonmember_status_counterexample :
    (swipeOption demoStore2 (some "S2") (some "zz") (some "A") (some "yes")).2
        = .userNotInSession ∧
      SwipeOutcome.statusCode .userNotInSession ≠ 400 ∧
      SwipeOutcome.errorMsg .userNotInSession = some "User is not in session" :=
  ⟨rfl, by decide, rfl⟩

/-- C2 amended: with all four arguments present, an existing session and
a userId outside `session.users`, RecordSwipe fails with the
"User is not in session" error, returned with status 404 (treated as a
NotFound-kind error, not a Conflict), and the store is unchanged. -/
theorem swipe_nonmember_rejected (st : Store) (sid uid oid act : String)
    (hs : sid ≠ "") (hu : uid ≠ "") (ho : oid ≠ "") (ha : act ≠ "")
    (s : Session) (hf : findSession st sid = some s)
    (hmem : s.users.contains uid = false) :
    swipeOption st (some sid) (some uid) (some oid) (some act)
        = (st, .userNotInSession) ∧
      SwipeOutcome.statusCode .userNotInSession = 404 := by
  refine ⟨?_, rfl⟩
  simp only [swipeOption, hs, hu, ho, ha, false_or, if_false, hf, hmem,
    Bool.false_eq_true, if_false]

/-- C2 amended witness: concrete non-member swipe, rejected with the
store unchanged. -/
theorem swipe_nonmember_rejected_witness :
    swipeOption demoStore2 (some "S2") (some "zz") (some "A") (some "yes")
        = (demoStore2, .userNotInSession) ∧
      SwipeOutcome.statusCode .userNotInSession = 404 :=
  swipe_nonmember_rejected demoStore2 "S2" "zz" "A" "yes" (by decide)
    (by decide) (by decide) (by decide) demoSession2 rfl (by decide)

/-- C3 counterexample: for a Completed session and a userId that resolves
to no user, JoinSession answers with the cannot-join-status Conflict
return site (the status guard runs before the user lookup), not with the
user-missing NotFound one. -/
theorem join_missing_user_completed_counterexample :
    joinSession demoStoreDone (some "SC") (some "u9")
        = (demoStoreDone, .cannotJoinStatus .Completed) ∧
      JoinOutcome.cannotJoinStatus .Completed ≠ .userMissing ∧
      (JoinOutcome.cannotJoinStatus .Completed).errorMsg
        = some "Cannot join a completed session" :=
  ⟨rfl, by decide, by decide⟩

/-- C3 amended: with both ids present, an existing session whose status
is neither Completed nor Cancelled, and a userId that resolves to no
user, JoinSession fails with the user-missing NotFound error (status
404) and the store is unchanged.  (For Completed/Cancelled sessions the
status Conflict fires first, even when the user does not exist.) -/
theorem join_missing_user_not_found (st : Store) (sid uid : String)
    (hs : sid ≠ "") (hu : uid ≠ "") (s : Session)
    (hf : findSession st sid = some s)
    (hst1 : s.status ≠ .Completed) (hst2 : s.status ≠ .Cancelled)
    (huser : findUser st uid = none) :
    joinSession st (some sid) (some uid) = (st, .userMissing) ∧
      JoinOutcome.statusCode .userMissing = 404 := by
  refine ⟨?_, rfl⟩
  simp only [joinSession, hs, hu, false_or, if_false, hf, hst1, hst2,
    or_self, if_false, huser]

/-- C3 amended witness: joining a Pending session with an unknown user
fails with the user-missing NotFound error. -/
theorem join_missing_user_not_found_witness :
    joinSession demoStore1 (some "S1") (some "u9") = (demoStore1, .userMissing) ∧
      JoinOutcome.statusCode .userMissing = 404 :=
  join_missing_user_not_found demoStore1 "S1" "u9" (by decide) (by decide)
    demoSession1 rfl (by decide) (by decide) rfl

/-- C4: RecordSwipe is idempotent: if a swipe succeeds, repeating it with
identical arguments leaves the store exactly as after the first call and
returns the same vote map. -/
theorem recordSwipe_idempotent (st st1 : Store) (a b c d : Option String)
    (m : List (String × String))
    (h : swipeOption st a b c d = (st1, .recorded m)) :
    swipeOption st1 a b c d = (st1, .recorded m) := by
  obtain ⟨sid, uid, oid, act, s, ha1, hb1, hc1, hd1, hs, hu, ho, hact0,
    hfind, hmem, hact, hst1, hm⟩ := swipeOption_recorded_inv st st1 a b c d m h
  subst ha1 hb1 hc1 hd1 hst1 hm
  have hf1 : findSession
      (setSession st sid { s with swipes := (upsertSwipe s.swipes uid oid act).1 })
      sid = some { s with swipes := (upsertSwipe s.swipes uid oid act).1 } :=
    findSession_setSession st sid _ s hfind
  rw [swipeOption_eq_recorded _ sid uid oid act _ hs hu ho hact0 hf1 hmem hact]
  simp [setSession_setSession, upsertSwipe_upsertSwipe s.swipes uid oid act act]

/-- C4 witness: re-recording the same yes vote leaves the store from the
first call untouched and returns the same map. -/
theorem recordSwipe_idempotent_witness :
    swipeOption
        (setSession demoStore1 "S1"
          { demoSession1 with swipes := [⟨"u1", [("A", "yes")]⟩] })
        (some "S1") (some "u1") (some "A") (some "yes")
      = (setSession demoStore1 "S1"
          { demoSession1 with swipes := [⟨"u1", [("A", "yes")]⟩] },
         .recorded [("A", "yes")]) :=
  recordSwipe_idempotent demoStore1
    (setSession demoStore1 "S1"
      { demoSession1 with swipes := [⟨"u1", [("A", "yes")]⟩] })
    (some "S1") (some "u1") (some "A") (some "yes") [("A", "yes")] rfl

lemma joinSession_store_of_error (st st1 : Store) (a b : Option String)
    (o : JoinOutcome) (h : joinSession st a b = (st1, o))
    (hno : ∀ s, o ≠ .joined s) : st1 = st := by
  unfold joinSession at h
  split at h
  · split at h
    · injection h with h1 h2; exact h1.symm
    · split at h
      · injection h with h1 h2; exact h1.symm
      · split at h
        · injection h with h1 h2; exact h1.symm
        · split at h
          · injection h with h1 h2; exact h1.symm
          · split at h
            · injection h with h1 h2; exact h1.symm
            · injection h with h1 h2; exact absurd h2.symm (hno _)
  · injection h with h1 h2; exact h1.symm

lemma swipeOption_store_of_error (st st1 : Store) (a b c d : Option String)
    (o : SwipeOutcome) (h : swipeOption st a b c d = (st1, o))
    (hno : ∀ m, o ≠ .recorded m) : st1 = st := by
  unfold swipeOption at h
  split at h
  · split at h
    · injection h with h1 h2; exact h1.symm
    · split at h
      · injection h with h1 h2; exact h1.symm
      · split at h
        · split at h
          · injection h with h1 h2; exact absurd h2.symm (hno _)
          · injection h with h1 h2; exact h1.symm
        · injection h with h1 h2; exact h1.symm
  · injection h with h1 h2; exact h1.symm

/-- C8: failed operations are atomic: whenever JoinSession or RecordSwipe
answers with anything but its success outcome, the returned store is the
input store — no partial mutation survives a failed guard. -/
theorem failed_ops_leave_store_unchanged (st st1 st2 : Store)
    (a b c d e f : Option String) (o1 : JoinOutcome) (o2 : SwipeOutcome)
    (h1 : joinSession st a b = (st1, o1)) (hno1 : ∀ s, o1 ≠ .joined s)
    (h2 : swipeOption st c d e f = (st2, o2))
    (hno2 : ∀ m, o2 ≠ .recorded m) :
    st1 = st ∧ st2 = st :=
  ⟨joinSession_store_of_error st st1 a b o1 h1 hno1,
   swipeOption_store_of_error st st2 c d e f o2 h2 hno2⟩

/-- C8 witness: a duplicate join and an invalid swipe action both leave
the concrete store untouched. -/
theorem failed_ops_leave_store_unchanged_witness :
    demoStore2 = demoStore2 ∧ demoStore2 = demoStore2 :=
  failed_ops_leave_store_unchanged demoStore2 demoStore2 demoStore2
    (some "S2") (some "u1") (some "S2") (some "u1") (some "A") (some "maybe")
    .alreadyInSession .invalidAction rfl (by intro s; simp) rfl
    (by intro m; simp)

/-- C5: RecordSwipe is last-write-wins: two successful swipes by the same
user on the same option with votes v1 then v2 yield exactly the state of
a single swipe with v2, and the returned vote map binds the option to v2
alone. -/
theorem recordSwipe_lastWriteWins (st st1 st2 : Store)
    (sid uid oid v1 v2 : String) (m1 m2 : List (String × String)) (s : Session)
    (hf : findSession st sid = some s) (hwf : SessionWF s) (_hne : v1 ≠ v2)
    (h1 : swipeOption st (some sid) (some uid) (some oid) (some v1)
      = (st1, .recorded m1))
    (h2 : swipeOption st1 (some sid) (some uid) (some oid) (some v2)
      = (st2, .recorded m2)) :
    swipeOption st (some sid) (some uid) (some oid) (some v2)
        = (st2, .recorded m2)
      ∧ m2.lookup oid = some v2
      ∧ m2.filter (fun p => p.1 == oid) = [(oid, v2)] := by
  obtain ⟨sidA, uidA, oidA, actA, sA, heA1, heA2, heA3, heA4, hsA, huA, hoA,
    hvA, hfindA, hmemA, hactA, hst1, hm1⟩ :=
    swipeOption_recorded_inv _ _ _ _ _ _ _ h1
  injection heA1 with heA1; injection heA2 with heA2
  injection heA3 with heA3; injection heA4 with heA4
  subst heA1 heA2 heA3 heA4
  rw [hf] at hfindA
  injection hfindA with hfindA
  subst hfindA
  obtain ⟨sidB, uidB, oidB, actB, sB, heB1, heB2, heB3, heB4, hsB, huB, hoB,
    hvB, hfindB, hmemB, hactB, hst2, hm2⟩ :=
    swipeOption_recorded_inv _ _ _ _ _ _ _ h2
  injection heB1 with heB1; injection heB2 with heB2
  injection heB3 with heB3; injection heB4 with heB4
  subst heB1 heB2 heB3 heB4
  subst hst1
  have hfind1 : findSession
      (setSession st sid { s with swipes := (upsertSwipe s.swipes uid oid v1).1 })
      sid = some { s with swipes := (upsertSwipe s.swipes uid oid v1).1 } :=
    findSession_setSession st sid _ s hf
  rw [hfind1] at hfindB
  injection hfindB with hfindB
  subst hfindB
  have hup : upsertSwipe (upsertSwipe s.swipes uid oid v1).1 uid oid v2
      = upsertSwipe s.swipes uid oid v2 :=
    upsertSwipe_upsertSwipe s.swipes uid oid v1 v2
  have hm2' : m2 = (upsertSwipe s.swipes uid oid v2).2 := by
    rw [hm2]
    exact congrArg Prod.snd hup
  obtain ⟨m0, hm0, hmap⟩ := upsertSwipe_snd s.swipes uid oid v2 hwf
  refine ⟨?_, ?_, ?_⟩
  · rw [swipeOption_eq_recorded st sid uid oid v2 s hsB huB hoB hvB hf hmemA
      hactB, hst2, hm2]
    rw [setSession_setSession]
    simp only [hup]
  · rw [hm2', hmap]
    exact lookup_mapSet m0 oid v2
  · rw [hm2', hmap]
    exact filter_mapSet m0 oid v2 hm0

/-- C5 witness: voting "no" then "yes" on the same option equals a single
"yes" vote; the returned map holds only the "yes" binding. -/
theorem recordSwipe_lastWriteWins_witness :
    (swipeOption demoStore1 (some "S1") (some "u1") (some "A") (some "yes")
        = (setSession
            (setSession demoStore1 "S1"
              { demoSession1 with swipes := [⟨"u1", [("A", "no")]⟩] })
            "S1" { demoSession1 with swipes := [⟨"u1", [("A", "yes")]⟩] },
           .recorded [("A", "yes")])
      ∧ ([("A", "yes")] : List (String × String)).lookup "A" = some "yes"
      ∧ ([("A", "yes")] : List (String × String)).filter
          (fun p => p.1 == "A") = [("A", "yes")]) :=
  recordSwipe_lastWriteWins demoStore1
    (setSession demoStore1 "S1"
      { demoSession1 with swipes := [⟨"u1", [("A", "no")]⟩] })
    (setSession
      (setSession demoStore1 "S1"
        { demoSession1 with swipes := [⟨"u1", [("A", "no")]⟩] })
      "S1" { demoSession1 with swipes := [⟨"u1", [("A", "yes")]⟩] })
    "S1" "u1" "A" "no" "yes" [("A", "no")] [("A", "yes")] demoSession1 rfl
    (by simp [SessionWF, demoSession1]) (by decide) rfl rfl

/-- C10: a successful RecordSwipe only touches the target session's swipe
record of the acting user: the user collection, every other session, and
every other field of the target session are unchanged; swipe records of
other users are preserved, and at most one record (for the acting user)
is appended. -/
theorem recordSwipe_frame (st st1 : Store) (sid uid oid act : String)
    (m : List (String × String)) (s : Session)
    (hf : findSession st sid = some s)
    (h : swipeOption st (some sid) (some uid) (some oid) (some act)
      = (st1, .recorded m)) :
    st1.users = st.users
    ∧ (∀ k, k ≠ sid → findSession st1 k = findSession st k)
    ∧ ∃ s', findSession st1 sid = some s'
        ∧ s'.sessionId = s.sessionId ∧ s'.title = s.title
        ∧ s'.createdBy = s.createdBy ∧ s'.users = s.users
        ∧ s'.options = s.options ∧ s'.status = s.status
        ∧ s'.swipes.filter (fun r => !(r.userId == uid))
            = s.swipes.filter (fun r => !(r.userId == uid))
        ∧ (s'.swipes.map SwipeRecord.userId = s.swipes.map SwipeRecord.userId
            ∨ s'.swipes.map SwipeRecord.userId
              = s.swipes.map SwipeRecord.userId ++ [uid]) := by
  obtain ⟨sidA, uidA, oidA, actA, sA, heA1, heA2, heA3, heA4, hsA, huA, hoA,
    hvA, hfindA, hmemA, hactA, hst1, hm⟩ :=
    swipeOption_recorded_inv _ _ _ _ _ _ _ h
  injection heA1 with heA1; injection heA2 with heA2
  injection heA3 with heA3; injection heA4 with heA4
  subst heA1 heA2 heA3 heA4
  rw [hf] at hfindA
  injection hfindA with hfindA
  subst hfindA
  subst hst1
  refine ⟨rfl, ?_, ?_⟩
  · intro k hk
    exact findSession_setSession_ne st sid k _ hk
  · refine ⟨{ s with swipes := (upsertSwipe s.swipes uid oid act).1 },
      findSession_setSession st sid _ s hf, rfl, rfl, rfl, rfl, rfl, rfl,
      upsertSwipe_filter_ne s.swipes uid oid act,
      upsertSwipe_userIds s.swipes uid oid act⟩

/-- C10 witness: the frame conclusions at a concrete successful swipe in
a store that also holds an unrelated second session. -/
theorem recordSwipe_frame_witness :
    ((setSession ⟨[("S1", demoSession1), ("S2", demoSession2)],
        [("u1", demoUser)]⟩ "S1"
        { demoSession1 with swipes := [⟨"u1", [("A", "yes")]⟩] }).users
      = (⟨[("S1", demoSession1), ("S2", demoSession2)],
          [("u1", demoUser)]⟩ : Store).users
    ∧ (∀ k, k ≠ "S1" →
        findSession (setSession ⟨[("S1", demoSession1), ("S2", demoSession2)],
          [("u1", demoUser)]⟩ "S1"
          { demoSession1 with swipes := [⟨"u1", [("A", "yes")]⟩] }) k
          = findSession ⟨[("S1", demoSession1), ("S2", demoSession2)],
              [("u1", demoUser)]⟩ k)
    ∧ ∃ s', findSession (setSession ⟨[("S1", demoSession1), ("S2", demoSession2)],
          [("u1", demoUser)]⟩ "S1"
          { demoSession1 with swipes := [⟨"u1", [("A", "yes")]⟩] }) "S1"
          = some s'
        ∧ s'.sessionId = demoSession1.sessionId
        ∧ s'.title = demoSession1.title
        ∧ s'.createdBy = demoSession1.createdBy
        ∧ s'.users = demoSession1.users
        ∧ s'.options = demoSession1.options
        ∧ s'.status = demoSession1.status
        ∧ s'.swipes.filter (fun r => !(r.userId == "u1"))
            = demoSession1.swipes.filter (fun r => !(r.userId == "u1"))
        ∧ (s'.swipes.map SwipeRecord.userId
              = demoSession1.swipes.map SwipeRecord.userId
            ∨ s'.swipes.map SwipeRecord.userId
              = demoSession1.swipes.map SwipeRecord.userId ++ ["u1"])) :=
  recordSwipe_frame ⟨[("S1", demoSession1), ("S2", demoSession2)],
      [("u1", demoUser)]⟩
    (setSession ⟨[("S1", demoSession1), ("S2", demoSession2)],
        [("u1", demoUser)]⟩ "S1"
      { demoSession1 with swipes := [⟨"u1", [("A", "yes")]⟩] })
    "S1" "u1" "A" "yes" [("A", "yes")] demoSession1 rfl rfl

end Venn
